import Mathlib

/-!
Verification development for the `mosaic` beamforming core
(`src/mosaic/beamforming.py`).

The Python source is shallowly embedded below.  Python floats are modelled
by `ℝ` where transcendental functions (`log`, `sqrt`, `π`) are involved and
by `ℚ` for the purely arithmetic parts (overlap counting, delay stacking).
Exceptions are modelled by `Except MosaicError`; each `raise` site of the
source is mapped to the corresponding constructor of `MosaicError`, named
after the error taxonomy of the specification (the source raises bare
strings, so the taxonomy names are the only stable identities the errors
have).  External collaborators (observation engine, packing engine, delay
oracle) are passed in as explicit function parameters, mirroring the
imported modules the source delegates to.
-/

/-- Error taxonomy of the specification.  `insufficientAntennas` is the
raise site at `get_beam_shape` (fewer than 3 antennas), `invalidOverlap`
the rejection of an out-of-range overlap in `normInverse`,
`unsupportedMode` the raise site in `Overlap.calculate_fractions`.
No statement in `beamforming.py` raises an invalid-input-type error; the
constructor `invalidInputType` exists only because the specification
names it. -/
inductive MosaicError where
  | insufficientAntennas
  | invalidOverlap
  | unsupportedMode
  | invalidInputType
  deriving DecidableEq, Repr

/-- Modelled from the spec: `normInverse` is defined in
`mosaic/utilities.py`, which is repository code not provided under `src/`.
Per the specification it solves, for a Gaussian with the given mean and
standard deviation, for the offset `x` at which the Gaussian profile equals
the `p` fraction of its peak, `x = mean + sigma * sqrt (-2 * ln p)`, and
rejects `p ≤ 0` or `p ≥ 1` with `InvalidOverlapError`. -/
noncomputable def normInverse (p mean sigma : ℝ) : Except MosaicError ℝ :=
  if p ≤ 0 ∨ 1 ≤ p then .error .invalidOverlap
  else .ok (mean + sigma * Real.sqrt (-2 * Real.log p))

/-- The opaque point-spread-function raster handed over by the observation
engine (`getPointSpreadFunction`): an image, its bore sight and its angular
width; only stored, never interpreted, by the core. -/
structure PSF where
  image : List (List ℝ)
  bore_sight : ℝ × ℝ
  width : ℝ

/-- `BeamShape` from `beamforming.py`: the elliptical approximation of the
main lobe plus the raw PSF and observation metadata.  Field for field the
constructor arguments of `BeamShape.__init__`. -/
structure BeamShape where
  axisH : ℝ
  axisV : ℝ
  angle : ℝ
  psf : PSF
  antennas : List (List ℝ)
  bore_sight : Option (List ℝ)
  reference_antenna : ℚ × ℚ × ℚ
  horizon : ℝ × ℝ

/-- `BeamShape.width_at_overlap`: converts each stored semi-axis to a
standard deviation via `sigma = axis * (2 / 2.3548200450309493)` and calls
`normInverse(overlap, 0, sigma)` per axis.  An exception raised by the
first `normInverse` call propagates (as in Python). -/
noncomputable def BeamShape.width_at_overlap (b : BeamShape) (overlap : ℝ) :
    Except MosaicError (ℝ × ℝ) :=
  let sigmaH := b.axisH * (2 / 2.3548200450309493)
  let sigmaV := b.axisV * (2 / 2.3548200450309493)
  match normInverse overlap 0 sigmaH, normInverse overlap 0 sigmaV with
  | .ok widthH, .ok widthV => .ok (widthH, widthV)
  | .error e, _ => .error e
  | .ok _, .error e => .error e

/-- The width computation exactly as claim C1 words it: the standard
deviation is `axis / 2.3548200450309493` (no further factor), then per axis
`x = sigma * sqrt (-2 * ln overlap)`.  Kept only to be compared with the
embedding of the source. -/
noncomputable def width_at_overlap_claimed (b : BeamShape) (overlap : ℝ) : ℝ × ℝ :=
  (b.axisH / 2.3548200450309493 * Real.sqrt (-2 * Real.log overlap),
   b.axisV / 2.3548200450309493 * Real.sqrt (-2 * Real.log overlap))

lemma normInverse_ok (p mean sigma : ℝ) (h0 : 0 < p) (h1 : p < 1) :
    normInverse p mean sigma = .ok (mean + sigma * Real.sqrt (-2 * Real.log p)) := by
  unfold normInverse
  rw [if_neg]
  push_neg
  exact ⟨h0, h1⟩

lemma normInverse_error (p mean sigma : ℝ) (h : p ≤ 0 ∨ 1 ≤ p) :
    normInverse p mean sigma = .error .invalidOverlap := by
  unfold normInverse
  rw [if_pos h]

lemma width_at_overlap_ok (b : BeamShape) (p : ℝ) (h0 : 0 < p) (h1 : p < 1) :
    b.width_at_overlap p = .ok
      (b.axisH * (2 / 2.3548200450309493) * Real.sqrt (-2 * Real.log p),
       b.axisV * (2 / 2.3548200450309493) * Real.sqrt (-2 * Real.log p)) := by
  unfold BeamShape.width_at_overlap
  dsimp only
  rw [normInverse_ok _ _ _ h0 h1, normInverse_ok _ _ _ h0 h1]
  simp

lemma width_at_overlap_error (b : BeamShape) (p : ℝ) (h : p ≤ 0 ∨ 1 ≤ p) :
    b.width_at_overlap p = .error .invalidOverlap := by
  unfold BeamShape.width_at_overlap
  dsimp only
  rw [normInverse_error _ _ _ h, normInverse_error _ _ _ h]

/-- An example point-spread function used to build concrete beam shapes. -/
def psfEx : PSF := ⟨[], (0, 0), 0⟩

/-- A concrete beam shape with unit axes. -/
noncomputable def bsEx : BeamShape :=
  { axisH := 1, axisV := 1, angle := 0, psf := psfEx, antennas := [],
    bore_sight := none, reference_antenna := (0, 0, 0), horizon := (0, 0) }

/-- A concrete beam shape whose axes are both zero. -/
noncomputable def bsZero : BeamShape :=
  { axisH := 0, axisV := 0, angle := 0, psf := psfEx, antennas := [],
    bore_sight := none, reference_antenna := (0, 0, 0), horizon := (0, 0) }

lemma sqrt_neg_two_log_exp_neg_two : Real.sqrt (-2 * Real.log (Real.exp (-2))) = 2 := by
  rw [Real.log_exp, show (-2 * (-2) : ℝ) = 4 by norm_num,
    show (4 : ℝ) = 2 ^ 2 by norm_num, Real.sqrt_sq (by norm_num)]

/-- C1 (counterexample): at the beam shape with unit axes and
`overlap = exp (-2)`, the value computed by the source
(`sigma = axis * (2 / 2.3548200450309493)`, giving width `4 / 2.3548…`)
differs from the value the claim prescribes
(`sigma = axis / 2.3548200450309493`, giving width `2 / 2.3548…`). -/
theorem width_at_overlap_claim_counterexample :
    bsEx.width_at_overlap (Real.exp (-2)) ≠
      Except.ok (width_at_overlap_claimed bsEx (Real.exp (-2))) := by
  rw [width_at_overlap_ok bsEx (Real.exp (-2)) (Real.exp_pos _)
    (Real.exp_lt_one_iff.mpr (by norm_num))]
  unfold width_at_overlap_claimed
  rw [sqrt_neg_two_log_exp_neg_two]
  intro h
  rw [Except.ok.injEq, Prod.mk.injEq] at h
  have h1 := h.1
  rw [show bsEx.axisH = 1 from rfl] at h1
  norm_num at h1

/-- C1 (amended): for every `overlap` in the open interval `(0, 1)`,
`width_at_overlap` returns the pair obtained by converting each axis to a
standard deviation via `sigma = axis * (2 / 2.3548200450309493)` — the
stored axes are semi-axes, so the full-width-half-maximum is twice them —
and then, independently per axis, returning
`x = sigma * sqrt (-2 * ln overlap)`. -/
theorem width_at_overlap_formula (b : BeamShape) (p : ℝ) (h0 : 0 < p) (h1 : p < 1) :
    b.width_at_overlap p = .ok
      (b.axisH * (2 / 2.3548200450309493) * Real.sqrt (-2 * Real.log p),
       b.axisV * (2 / 2.3548200450309493) * Real.sqrt (-2 * Real.log p)) :=
  width_at_overlap_ok b p h0 h1

/-- Witness for C1's amended theorem at `overlap = 1 / 2`. -/
theorem width_at_overlap_formula_witness :
    (0 : ℝ) < 1 / 2 ∧ (1 : ℝ) / 2 < 1 ∧
    bsEx.width_at_overlap (1 / 2) = .ok
      (bsEx.axisH * (2 / 2.3548200450309493) * Real.sqrt (-2 * Real.log (1 / 2)),
       bsEx.axisV * (2 / 2.3548200450309493) * Real.sqrt (-2 * Real.log (1 / 2))) :=
  ⟨by norm_num, by norm_num,
   width_at_overlap_formula bsEx (1 / 2) (by norm_num) (by norm_num)⟩

/-- C7: `width_at_overlap` rejects every `overlap ≤ 0` or `overlap ≥ 1`
with `InvalidOverlapError` and succeeds on every `overlap` strictly inside
`(0, 1)`. -/
theorem width_at_overlap_overlap_range (b : BeamShape) (p : ℝ) :
    ((p ≤ 0 ∨ 1 ≤ p) → b.width_at_overlap p = .error .invalidOverlap) ∧
    (0 < p → p < 1 → ∃ w, b.width_at_overlap p = .ok w) :=
  ⟨fun h => width_at_overlap_error b p h,
   fun h0 h1 => ⟨_, width_at_overlap_ok b p h0 h1⟩⟩

/-- Witness for C7 at `overlap = 2` (rejected) and `overlap = 1 / 2`
(accepted). -/
theorem width_at_overlap_overlap_range_witness :
    bsEx.width_at_overlap 2 = .error .invalidOverlap ∧
    ∃ w, bsEx.width_at_overlap (1 / 2) = .ok w :=
  ⟨(width_at_overlap_overlap_range bsEx 2).1 (Or.inr (by norm_num)),
   (width_at_overlap_overlap_range bsEx (1 / 2)).2 (by norm_num) (by norm_num)⟩

/-- C8 (counterexample): strict positivity of the widths fails for the
beam shape whose axes are both zero — at `overlap = exp (-2)` it returns
the widths `(0, 0)`. -/
theorem width_positive_counterexample :
    ¬ ∀ (b : BeamShape) (p : ℝ) (w : ℝ × ℝ),
        0 < p → p < 1 → b.width_at_overlap p = .ok w → 0 < w.1 ∧ 0 < w.2 := by
  intro hclaim
  have hlt : Real.exp (-2) < 1 := Real.exp_lt_one_iff.mpr (by norm_num)
  have hok : bsZero.width_at_overlap (Real.exp (-2)) = .ok (0, 0) := by
    rw [width_at_overlap_ok bsZero (Real.exp (-2)) (Real.exp_pos _) hlt]
    rw [show bsZero.axisH = 0 from rfl, show bsZero.axisV = 0 from rfl]
    norm_num
  have h := hclaim bsZero (Real.exp (-2)) (0, 0) (Real.exp_pos _) hlt hok
  exact lt_irrefl 0 h.1

/-- C8 (amended): for every beam shape with nonnegative axes and every
`p1 < p2` in `(0, 1)`, both width components at `p2` are at most the
corresponding components at `p1` (the widths decrease monotonically in the
overlap), and a component is strictly positive whenever its axis is. -/
theorem width_at_overlap_monotone_positive (b : BeamShape) (p1 p2 : ℝ) (w1 w2 : ℝ × ℝ)
    (hH : 0 ≤ b.axisH) (hV : 0 ≤ b.axisV)
    (h0 : 0 < p1) (h12 : p1 < p2) (h2 : p2 < 1)
    (e1 : b.width_at_overlap p1 = .ok w1) (e2 : b.width_at_overlap p2 = .ok w2) :
    w2.1 ≤ w1.1 ∧ w2.2 ≤ w1.2 ∧
    (0 < b.axisH → 0 < w1.1) ∧ (0 < b.axisV → 0 < w1.2) := by
  rw [width_at_overlap_ok b p1 h0 (h12.trans h2)] at e1
  rw [width_at_overlap_ok b p2 (h0.trans h12) h2] at e2
  rw [Except.ok.injEq] at e1 e2
  subst e1
  subst e2
  have hlog : Real.log p1 ≤ Real.log p2 := Real.log_le_log h0 h12.le
  have hs : Real.sqrt (-2 * Real.log p2) ≤ Real.sqrt (-2 * Real.log p1) :=
    Real.sqrt_le_sqrt (by nlinarith)
  have hspos : 0 < Real.sqrt (-2 * Real.log p1) :=
    Real.sqrt_pos.mpr (by nlinarith [Real.log_neg h0 (h12.trans h2)])
  have hk : (0 : ℝ) < 2 / 2.3548200450309493 := by norm_num
  refine ⟨?_, ?_, ?_, ?_⟩
  · exact mul_le_mul_of_nonneg_left hs (by positivity)
  · exact mul_le_mul_of_nonneg_left hs (by positivity)
  · intro hpos
    exact mul_pos (mul_pos hpos hk) hspos
  · intro hpos
    exact mul_pos (mul_pos hpos hk) hspos

/-- Witness for C8's amended theorem: the unit-axis beam shape at
`p1 = 1 / 4` and `p2 = 1 / 2`. -/
theorem width_at_overlap_monotone_positive_witness :
    bsEx.axisH * (2 / 2.3548200450309493) * Real.sqrt (-2 * Real.log (1 / 2)) ≤
      bsEx.axisH * (2 / 2.3548200450309493) * Real.sqrt (-2 * Real.log (1 / 4)) ∧
    bsEx.axisV * (2 / 2.3548200450309493) * Real.sqrt (-2 * Real.log (1 / 2)) ≤
      bsEx.axisV * (2 / 2.3548200450309493) * Real.sqrt (-2 * Real.log (1 / 4)) ∧
    0 < bsEx.axisH * (2 / 2.3548200450309493) * Real.sqrt (-2 * Real.log (1 / 4)) ∧
    0 < bsEx.axisV * (2 / 2.3548200450309493) * Real.sqrt (-2 * Real.log (1 / 4)) := by
  have h := width_at_overlap_monotone_positive bsEx (1 / 4) (1 / 2)
    (bsEx.axisH * (2 / 2.3548200450309493) * Real.sqrt (-2 * Real.log (1 / 4)),
     bsEx.axisV * (2 / 2.3548200450309493) * Real.sqrt (-2 * Real.log (1 / 4)))
    (bsEx.axisH * (2 / 2.3548200450309493) * Real.sqrt (-2 * Real.log (1 / 2)),
     bsEx.axisV * (2 / 2.3548200450309493) * Real.sqrt (-2 * Real.log (1 / 2)))
    (by norm_num [bsEx]) (by norm_num [bsEx]) (by norm_num) (by norm_num) (by norm_num)
    (width_at_overlap_ok bsEx (1 / 4) (by norm_num) (by norm_num))
    (width_at_overlap_ok bsEx (1 / 2) (by norm_num) (by norm_num))
  exact ⟨h.1, h.2.1, h.2.2.1 (by norm_num [bsEx]), h.2.2.2 (by norm_num [bsEx])⟩

/-- `Overlap` from `beamforming.py`: an overlap-calculation result.
`metrics` is the sampled grid (flattened; `np.count_nonzero` is
shape-agnostic, so the 2-D layout is irrelevant to `calculate_fractions`)
and `mode` the mode string (`"counter"` or `"heater"`) it was computed
with. -/
structure Overlap where
  metrics : List ℚ
  mode : String

/-- `Overlap.calculate_fractions`: raises (the `UnsupportedModeError` raise
site) unless `mode == "counter"`, otherwise counts the grid points with
count greater than 1, equal to 1 and equal to 0, and divides each count by
their sum `point_num`. -/
def Overlap.calculate_fractions (o : Overlap) : Except MosaicError (ℚ × ℚ × ℚ) :=
  if o.mode ≠ "counter" then .error .unsupportedMode
  else
    let overlap_grid : ℕ := o.metrics.countP fun x => decide (1 < x)
    let non_overlap_grid : ℕ := o.metrics.countP fun x => decide (x = 1)
    let empty_grid : ℕ := o.metrics.countP fun x => decide (x = 0)
    let point_num : ℕ := overlap_grid + non_overlap_grid + empty_grid
    .ok ((overlap_grid : ℚ) / point_num, (non_overlap_grid : ℚ) / point_num,
      (empty_grid : ℚ) / point_num)

lemma nat_count_partition (counts : List ℕ) :
    (counts.countP fun n => decide (1 < n)) + (counts.countP fun n => decide (n = 1)) +
      (counts.countP fun n => decide (n = 0)) = counts.length := by
  induction counts with
  | nil => simp
  | cons a t ih =>
    rcases a with _ | _ | n <;>
      simp only [List.countP_cons, List.length_cons] <;> simp <;> omega

lemma countP_map_cast (p : ℚ → Bool) (q : ℕ → Bool) (hpq : ∀ n : ℕ, p (n : ℚ) = q n)
    (counts : List ℕ) : (counts.map fun n : ℕ => (n : ℚ)).countP p = counts.countP q := by
  induction counts with
  | nil => simp
  | cons a t ih => simp [List.countP_cons, ih, hpq]

lemma countP_cast_gt_one (counts : List ℕ) :
    ((counts.map fun n : ℕ => (n : ℚ)).countP fun x => decide (1 < x)) =
      counts.countP fun n => decide (1 < n) :=
  countP_map_cast _ _ (fun n => by simp [Nat.one_lt_cast]) counts

lemma countP_cast_eq_one (counts : List ℕ) :
    ((counts.map fun n : ℕ => (n : ℚ)).countP fun x => decide (x = 1)) =
      counts.countP fun n => decide (n = 1) :=
  countP_map_cast _ _ (fun n => by simp) counts

lemma countP_cast_eq_zero (counts : List ℕ) :
    ((counts.map fun n : ℕ => (n : ℚ)).countP fun x => decide (x = 0)) =
      counts.countP fun n => decide (n = 0) :=
  countP_map_cast _ _ (fun n => by simp) counts

/-- C5: on a `counter`-mode overlap whose grid holds nonnegative integer
counts (and at least one sampled point), `calculate_fractions` returns the
three point classes — count greater than 1, equal to 1, equal to 0 — each
as a fraction of the total number of sampled grid points, and the three
fractions sum to exactly 1. -/
theorem calculate_fractions_partition (counts : List ℕ) (h : counts ≠ []) :
    (Overlap.mk (counts.map fun n : ℕ => (n : ℚ)) "counter").calculate_fractions = .ok
      (((counts.countP fun n => decide (1 < n) : ℕ) : ℚ) / counts.length,
       ((counts.countP fun n => decide (n = 1) : ℕ) : ℚ) / counts.length,
       ((counts.countP fun n => decide (n = 0) : ℕ) : ℚ) / counts.length) ∧
    ((counts.countP fun n => decide (1 < n) : ℕ) : ℚ) / counts.length +
      ((counts.countP fun n => decide (n = 1) : ℕ) : ℚ) / counts.length +
      ((counts.countP fun n => decide (n = 0) : ℕ) : ℚ) / counts.length = 1 := by
  have hlen : (counts.length : ℚ) ≠ 0 := by
    exact_mod_cast fun hc => h (List.length_eq_zero.mp hc)
  constructor
  · unfold Overlap.calculate_fractions
    rw [if_neg (by simp)]
    dsimp only
    rw [countP_cast_gt_one, countP_cast_eq_one, countP_cast_eq_zero,
      nat_count_partition]
  · rw [div_add_div_same, div_add_div_same]
    rw [show ((counts.countP fun n => decide (1 < n) : ℕ) : ℚ) +
        ((counts.countP fun n => decide (n = 1) : ℕ) : ℚ) +
        ((counts.countP fun n => decide (n = 0) : ℕ) : ℚ) = (counts.length : ℚ) by
      exact_mod_cast congrArg (Nat.cast : ℕ → ℚ) (nat_count_partition counts)]
    exact div_self hlen

/-- Witness for C5 at the grid `[0, 1, 2]`: fractions `(1/3, 1/3, 1/3)`
summing to 1. -/
theorem calculate_fractions_partition_witness :
    (Overlap.mk [(0 : ℚ), 1, 2] "counter").calculate_fractions =
      .ok (1 / 3, 1 / 3, 1 / 3) ∧
    ((1 : ℚ) / 3) + 1 / 3 + 1 / 3 = 1 := by
  have h := calculate_fractions_partition [0, 1, 2] (by decide)
  refine ⟨?_, by norm_num⟩
  have heq : ([0, 1, 2] : List ℚ) = ([0, 1, 2] : List ℕ).map fun n : ℕ => (n : ℚ) := by
    norm_num
  rw [heq]
  rw [h.1]
  norm_num

/-- C6: `calculate_fractions` raises `UnsupportedModeError` for every mode
other than `"counter"` (in particular `"heater"`), returning no partial
result, and never raises that error in `"counter"` mode. -/
theorem calculate_fractions_mode_check :
    (∀ (metrics : List ℚ) (mode : String), mode ≠ "counter" →
      (Overlap.mk metrics mode).calculate_fractions = .error .unsupportedMode) ∧
    (∀ metrics : List ℚ, ∃ v,
      (Overlap.mk metrics "counter").calculate_fractions = .ok v) := by
  constructor
  · intro metrics mode hm
    unfold Overlap.calculate_fractions
    rw [if_pos hm]
  · intro metrics
    unfold Overlap.calculate_fractions
    rw [if_neg (by simp)]
    exact ⟨_, rfl⟩

/-- Witness for C6: a `"heater"`-mode overlap is rejected, a
`"counter"`-mode overlap is not. -/
theorem calculate_fractions_mode_check_witness :
    (Overlap.mk [(1 : ℚ)] "heater").calculate_fractions = .error .unsupportedMode ∧
    ∃ v, (Overlap.mk [(1 : ℚ)] "counter").calculate_fractions = .ok v :=
  ⟨calculate_fractions_mode_check.1 [(1 : ℚ)] "heater" (by decide),
   calculate_fractions_mode_check.2 [(1 : ℚ)]⟩

/-- `np.rad2deg`. -/
noncomputable def rad2deg (x : ℝ) : ℝ := x * (180 / Real.pi)

/-- Input universe of `PsfSim.check_antennas`.  The source dispatches on
the runtime type of `antennas[0]` after `np.array(antennas)`: a numeric
row (`np.ndarray`), a `katpoint.Antenna` (carrying observer latitude and
longitude in radians plus elevation), or anything else.  A list handed to
`np.array` is homogeneous, so the dispatch is modelled as a tagged union
over whole lists. -/
inductive AntennasInput where
  | literal (rows : List (List ℚ))
  | katObjects (ants : List (ℝ × ℝ × ℝ))
  | unrecognized

/-- `PsfSim.check_antennas`: returns the literal rows unchanged, converts
katpoint antennas to `[deg lat, deg lon, elevation]`, and — having no
`else` branch — falls through to `None` on anything else. -/
noncomputable def check_antennas : AntennasInput → Option (List (List ℝ))
  | .literal rows => some (rows.map fun r => r.map fun x => (x : ℝ))
  | .katObjects ants =>
      some (ants.map fun a => [rad2deg a.1, rad2deg a.2.1, a.2.2])
  | .unrecognized => none

/-- Input universe of `PsfSim.check_source`: an `np.ndarray`, `list` or
`tuple` literal, a `katpoint.Target` (carrying `body._ra`, `body._dec` in
radians), or anything else. -/
inductive SourceInput where
  | literal (coords : List ℚ)
  | target (ra dec : ℝ)
  | unrecognized

/-- `PsfSim.check_source`: returns a literal unchanged, converts a
katpoint target to `[deg ra, deg dec]`, and — having no `else` branch —
falls through to `None` on anything else. -/
noncomputable def check_source : SourceInput → Option (List ℝ)
  | .literal coords => some (coords.map fun x => (x : ℝ))
  | .target ra dec => some [rad2deg ra, rad2deg dec]
  | .unrecognized => none

/-- C9 (counterexample): on an argument that is neither a recognized
literal form nor a recognized external-engine handle, `check_source` and
`check_antennas` return `None` — neither function contains a raise
statement, so no `InvalidInputTypeError` is raised. -/
theorem check_input_unrecognized_counterexample :
    check_source .unrecognized = none ∧ check_antennas .unrecognized = none :=
  ⟨rfl, rfl⟩

/-- C9 (amended): the input-normalization operations return `Some`
normalized value on every recognized literal form and every recognized
external-engine handle, and silently return `None` — rather than raising
`InvalidInputTypeError` — on anything else. -/
theorem check_input_none_behaviour :
    check_antennas .unrecognized = none ∧
    check_source .unrecognized = none ∧
    (∀ rows, ∃ v, check_antennas (.literal rows) = some v) ∧
    (∀ ants, ∃ v, check_antennas (.katObjects ants) = some v) ∧
    (∀ coords, ∃ v, check_source (.literal coords) = some v) ∧
    (∀ ra dec, ∃ v, check_source (.target ra dec) = some v) :=
  ⟨rfl, rfl, fun _ => ⟨_, rfl⟩, fun _ => ⟨_, rfl⟩,
   fun _ => ⟨_, rfl⟩, fun _ _ => ⟨_, rfl⟩⟩

/-- The time argument of the core: either an already-epoch scalar or one
of the higher-level datetime values.  Modelled from the spec: the external
pure conversion `coord.datetimeToEpoch` is not under `src/`; the
`datetime` constructor carries the epoch seconds that conversion yields
for it. -/
inductive TimeInput where
  | epochInt (t : ℤ)
  | epochFloat (t : ℚ)
  | datetime (epochSeconds : ℚ)

/-- `DelayPolynomial.check_time`: values whose type is neither `int` nor
`float` are converted to epoch seconds, others are returned unchanged. -/
def check_time : TimeInput → ℚ
  | .epochInt t => (t : ℚ)
  | .epochFloat t => t
  | .datetime s => s

/-- `Tiling` from `beamforming.py`: a tiling result.  `beam_num` is set by
`__init__` to `len(coordinates)`; no method of the class ever assigns to
`coordinates` or `beam_num` again. -/
structure Tiling where
  coordinates : List (ℝ × ℝ)
  beam_shape : BeamShape
  tiling_radius : ℝ
  beam_num : ℕ
  overlap : ℝ

/-- `Tiling.__init__`. -/
def Tiling.create (coordinates : List (ℝ × ℝ)) (beam_shape : BeamShape)
    (radius : ℝ) (overlap : ℝ) : Tiling :=
  { coordinates := coordinates, beam_shape := beam_shape,
    tiling_radius := radius, beam_num := coordinates.length,
    overlap := overlap }

/-- The external packing engine (`tile.ellipseCompact`, `tile.ellipseGrid`).
`ellipseCompact` returns coordinates and the circumscribing radius;
`ellipseGrid` returns a 2-row array (an x row and a y row) which the
caller transposes. -/
structure PackingEngine where
  ellipseCompact : ℕ → ℝ → ℝ → ℝ → ℕ → List (ℝ × ℝ) × ℝ
  ellipseGrid : ℝ → ℝ → ℝ → ℝ → List ℝ × List ℝ

/-- `generate_nbeams_tiling`: derives the widths at the overlap (an
exception from `width_at_overlap` propagates), asks the packing engine for
the most compact arrangement with precision 10, and assembles the
`Tiling`. -/
noncomputable def generate_nbeams_tiling (pe : PackingEngine) (beam_shape : BeamShape)
    (beam_num : ℕ) (overlap : ℝ) : Except MosaicError Tiling :=
  match beam_shape.width_at_overlap overlap with
  | .error e => .error e
  | .ok w =>
    let packed := pe.ellipseCompact beam_num w.1 w.2 beam_shape.angle 10
    .ok (Tiling.create packed.1 beam_shape packed.2 overlap)

/-- `generate_radius_tiling`: derives the widths at the overlap, asks the
packing engine for the grid inside the radius, transposes the returned
2-row array (`.T`, modelled as zipping the two rows) and assembles the
`Tiling`. -/
noncomputable def generate_radius_tiling (pe : PackingEngine) (beam_shape : BeamShape)
    (tiling_radius : ℝ) (overlap : ℝ) : Except MosaicError Tiling :=
  match beam_shape.width_at_overlap overlap with
  | .error e => .error e
  | .ok w =>
    let gridded := pe.ellipseGrid tiling_radius w.1 w.2 beam_shape.angle
    .ok (Tiling.create (gridded.1.zip gridded.2) beam_shape tiling_radius overlap)

/-- `Tiling.calculate_overlap`: delegates to the external
`calculateBeamOverlaps` (module `beamshape`), using the tiling's own beam
shape unless an override is given, and wraps the metrics with the mode. -/
def Tiling.calculate_overlap (t : Tiling)
    (calculateBeamOverlaps : List (ℝ × ℝ) → ℝ → ℝ → ℝ → ℝ → ℝ → String → List ℚ)
    (mode : String) (new_beam_shape : Option BeamShape) : Overlap :=
  let beam_shape := new_beam_shape.getD t.beam_shape
  Overlap.mk
    (calculateBeamOverlaps t.coordinates t.tiling_radius beam_shape.axisH
      beam_shape.axisV beam_shape.angle t.overlap mode) mode

/-- C4: `beam_num == len(coordinates)` holds for every `Tiling` right
after construction — in particular for every tiling successfully produced
by `generate_nbeams_tiling` or `generate_radius_tiling` — and, since no
operation of the class reassigns either field, it holds always. -/
theorem tiling_beam_num_invariant :
    (∀ (coords : List (ℝ × ℝ)) (bs : BeamShape) (r o : ℝ),
      (Tiling.create coords bs r o).beam_num =
        (Tiling.create coords bs r o).coordinates.length) ∧
    (∀ (pe : PackingEngine) (bs : BeamShape) (n : ℕ) (o : ℝ) (t : Tiling),
      generate_nbeams_tiling pe bs n o = .ok t →
        t.beam_num = t.coordinates.length) ∧
    (∀ (pe : PackingEngine) (bs : BeamShape) (r o : ℝ) (t : Tiling),
      generate_radius_tiling pe bs r o = .ok t →
        t.beam_num = t.coordinates.length) := by
  refine ⟨fun _ _ _ _ => rfl, ?_, ?_⟩
  · intro pe bs n o t h
    unfold generate_nbeams_tiling at h
    cases hw : bs.width_at_overlap o with
    | error e => rw [hw] at h; exact absurd h (by simp)
    | ok w =>
      rw [hw] at h
      dsimp only at h
      rw [Except.ok.injEq] at h
      subst h
      rfl
  · intro pe bs r o t h
    unfold generate_radius_tiling at h
    cases hw : bs.width_at_overlap o with
    | error e => rw [hw] at h; exact absurd h (by simp)
    | ok w =>
      rw [hw] at h
      dsimp only at h
      rw [Except.ok.injEq] at h
      subst h
      rfl

/-- A concrete packing engine returning a one-beam packing. -/
noncomputable def peEx : PackingEngine :=
  ⟨fun _ _ _ _ _ => ([(0, 0)], 1), fun _ _ _ _ => ([0], [0])⟩

/-- Witness for C4: the invariant at a directly constructed tiling and at
tilings produced by both generators with overlap `1 / 2`. -/
theorem tiling_beam_num_invariant_witness :
    (Tiling.create [((0 : ℝ), (0 : ℝ))] bsEx 1 (1 / 2)).beam_num =
      (Tiling.create [((0 : ℝ), (0 : ℝ))] bsEx 1 (1 / 2)).coordinates.length ∧
    (Tiling.create [((0 : ℝ), (0 : ℝ))] bsEx 1 (1 / 2)).beam_num =
      (Tiling.create [((0 : ℝ), (0 : ℝ))] bsEx 1 (1 / 2)).coordinates.length := by
  have hn : generate_nbeams_tiling peEx bsEx 5 (1 / 2) =
      .ok (Tiling.create [((0 : ℝ), (0 : ℝ))] bsEx 1 (1 / 2)) := by
    unfold generate_nbeams_tiling
    rw [width_at_overlap_ok bsEx (1 / 2) (by norm_num) (by norm_num)]
    rfl
  have hr : generate_radius_tiling peEx bsEx 1 (1 / 2) =
      .ok (Tiling.create [((0 : ℝ), (0 : ℝ))] bsEx 1 (1 / 2)) := by
    unfold generate_radius_tiling
    rw [width_at_overlap_ok bsEx (1 / 2) (by norm_num) (by norm_num)]
    rfl
  exact ⟨tiling_beam_num_invariant.2.1 peEx bsEx 5 (1 / 2) _ hn,
    tiling_beam_num_invariant.2.2 peEx bsEx 1 (1 / 2) _ hr⟩

/-- The external observation engine (`InterferometryObservation`),
parameterized by its internal state type `E`: the method table the core
drives.  `getHorizontal` returns radians (the core converts to
degrees). -/
structure ObservationEngine (E : Type) where
  setBoreSight : E → Option (List ℝ) → E
  setObserveTime : E → TimeInput → E
  createContour : E → List (List ℝ) → E
  getBeamAxis : E → ℝ × ℝ × ℝ
  getHorizontal : E → ℝ × ℝ
  getPointSpreadFunction : E → PSF

/-- The `PsfSim` instance state relevant to `get_beam_shape`:
`observation` (the engine state created by `__init__`) and `antennas`
(the result of a successful `check_antennas`). -/
structure PsfSim (E : Type) where
  observation : E
  antennas : List (List ℝ)

/-- The class constant `PsfSim.reference_antenna`. -/
def reference_antenna : ℚ × ℚ × ℚ := (-30.71106, 21.44389, 1035)

/-- `PsfSim.get_beam_shape`: raises (the `InsufficientAntennasError` raise
site) when fewer than 3 antennas are held, before any engine call;
otherwise normalizes the source, drives the engine (set bore sight, set
time, create contour), reads the axes, horizon and PSF, and builds the
`BeamShape`.  The second component of the result is the engine state after
the call. -/
noncomputable def PsfSim.get_beam_shape {E : Type} (sim : PsfSim E)
    (eng : ObservationEngine E) (source : SourceInput) (time : TimeInput) :
    Except MosaicError BeamShape × E :=
  if sim.antennas.length < 3 then (.error .insufficientAntennas, sim.observation)
  else
    let bore_sight := check_source source
    let e1 := eng.setBoreSight sim.observation bore_sight
    let e2 := eng.setObserveTime e1 time
    let e3 := eng.createContour e2 sim.antennas
    let axes := eng.getBeamAxis e3
    let horizon := eng.getHorizontal e3
    let psf := eng.getPointSpreadFunction e3
    (.ok { axisH := axes.1, axisV := axes.2.1, angle := axes.2.2, psf := psf,
           antennas := sim.antennas, bore_sight := bore_sight,
           reference_antenna := reference_antenna,
           horizon := (rad2deg horizon.1, rad2deg horizon.2) }, e3)

/-- C2: with fewer than 3 antennas `get_beam_shape` raises
`InsufficientAntennasError` and leaves the engine state untouched; with 3
or more antennas it performs the engine calls and returns a `BeamShape`. -/
theorem get_beam_shape_antenna_threshold {E : Type} (sim : PsfSim E)
    (eng : ObservationEngine E) (source : SourceInput) (time : TimeInput) :
    (sim.antennas.length < 3 →
      sim.get_beam_shape eng source time =
        (.error .insufficientAntennas, sim.observation)) ∧
    (3 ≤ sim.antennas.length →
      ∃ bs e2, sim.get_beam_shape eng source time = (.ok bs, e2)) := by
  constructor
  · intro h
    unfold PsfSim.get_beam_shape
    rw [if_pos h]
  · intro h
    unfold PsfSim.get_beam_shape
    rw [if_neg (by omega)]
    exact ⟨_, _, rfl⟩

/-- A trivial concrete observation engine over the unit state. -/
noncomputable def engUnit : ObservationEngine Unit :=
  { setBoreSight := fun _ _ => (), setObserveTime := fun _ _ => (),
    createContour := fun _ _ => (), getBeamAxis := fun _ => (0, 0, 0),
    getHorizontal := fun _ => (0, 0), getPointSpreadFunction := fun _ => psfEx }

/-- A `PsfSim` holding exactly 2 antennas. -/
noncomputable def simTwo : PsfSim Unit := ⟨(), [[0, 0, 0], [0, 0, 0]]⟩

/-- A `PsfSim` holding exactly 3 antennas. -/
noncomputable def simThree : PsfSim Unit := ⟨(), [[0, 0, 0], [0, 0, 0], [0, 0, 0]]⟩

/-- Witness for C2 at 2 and 3 antennas. -/
theorem get_beam_shape_antenna_threshold_witness :
    simTwo.get_beam_shape engUnit .unrecognized (.epochInt 0) =
      (.error .insufficientAntennas, ()) ∧
    ∃ bs e2, simThree.get_beam_shape engUnit .unrecognized (.epochInt 0) =
      (.ok bs, e2) :=
  ⟨(get_beam_shape_antenna_threshold simTwo engUnit .unrecognized (.epochInt 0)).1
      (by simp [simTwo]),
   (get_beam_shape_antenna_threshold simThree engUnit .unrecognized (.epochInt 0)).2
      (by simp [simThree])⟩

/-- An opaque `katpoint.Antenna` handle as used by `DelayPolynomial`
(geographic position; never inspected by the core). -/
structure KatAntenna where
  lat : ℚ
  lon : ℚ
  elev : ℚ

/-- A normalized target handle.  Modelled from the spec: the ephemeris
adapter (`katpoint.Target` built via `coord.angleToHour` /
`coord.angleToDEC`, neither under `src/`) converts a literal `[RA, DEC]`
pair into a handle carrying right ascension and declination. -/
inductive KatTarget where
  | handle (ra dec : ℚ)

/-- `DelayPolynomial.make_katpoint_target`: converts each coordinate pair
into a target handle. -/
def make_katpoint_target (sources : List (ℚ × ℚ)) : List KatTarget :=
  sources.map fun s => .handle s.1 s.2

/-- Input universe of `DelayPolynomial.check_targets`: the source
dispatches on the runtime type of `targets[0]` — already katpoint targets
are kept, anything else is handed to `make_katpoint_target`. -/
inductive TargetsInput where
  | katTargets (ts : List KatTarget)
  | literals (coords : List (ℚ × ℚ))

/-- `DelayPolynomial.check_targets`. -/
def check_targets : TargetsInput → List KatTarget
  | .katTargets ts => ts
  | .literals coords => make_katpoint_target coords

/-- `DelayPolynomial` from `beamforming.py`. -/
structure DelayPolynomial where
  antennas : List KatAntenna
  targets : List KatTarget
  frequency : ℚ
  reference : KatAntenna

/-- `DelayPolynomial.__init__`: normalizes the targets and fixes
`frequency = 1.4e9`; the constructor takes no frequency argument. -/
def DelayPolynomial.create (antennas : List KatAntenna) (targets : TargetsInput)
    (reference : KatAntenna) : DelayPolynomial :=
  { antennas := antennas, targets := check_targets targets,
    frequency := 1.4e9, reference := reference }

/-- The external delay-correction oracle: the composite of
`katpoint.DelayCorrection(antennas, reference, frequency)`,
`.corrections(target, (t0, t1))` and `dict_to_ordered_list` on the delay
dict — a per-key-sorted list of per-polarization matrices indexed
`[entry][rate sample][component]`. -/
abbrev DelayOracle :=
  List KatAntenna → KatAntenna → ℚ → KatTarget → ℚ × ℚ → List (List (List ℚ))

/-- The `[::2]` slice: every other element, starting with the first. -/
def everyOther : List α → List α
  | [] => []
  | [x] => [x]
  | x :: _ :: rest => x :: everyOther rest

/-- Elementwise matrix subtraction, the broadcast
`target_array - target_array[0, :, :]` applied to one row. -/
def matSub (a b : List (List ℚ)) : List (List ℚ) :=
  List.zipWith (List.zipWith (· - ·)) a b

/-- `DelayPolynomial.get_delay_polynomials`: normalizes the epoch, builds
the window `(timestamp, timestamp + duration)`, queries the oracle per
target at the fixed frequency, keeps one polarization (`[::2]`) and the
first rate output (`[:, 0, :]`), stacks the per-target matrices and
subtracts the matrix of target index 0 from every one of them. -/
def DelayPolynomial.get_delay_polynomials (dp : DelayPolynomial)
    (oracle : DelayOracle) (epoch : TimeInput) (duration : ℚ) :
    List (List (List ℚ)) :=
  let timestamp := check_time epoch
  let window := (timestamp, timestamp + duration)
  let target_array := dp.targets.map fun target =>
    let delayArray := oracle dp.antennas dp.reference dp.frequency target window
    (everyOther delayArray).map fun row => row.headD []
  match target_array with
  | [] => []
  | row0 :: _ => target_array.map fun row => matSub row row0

lemma matSub_self_entries (a : List (List ℚ)) :
    ∀ r ∈ matSub a a, ∀ x ∈ r, x = 0 := by
  intro r hr x hx
  unfold matSub at hr
  rw [List.zipWith_same] at hr
  rcases List.mem_map.mp hr with ⟨row, _, rfl⟩
  rw [List.zipWith_same] at hx
  rcases List.mem_map.mp hx with ⟨y, _, rfl⟩
  exact sub_self y

/-- C3: for every delay polynomial with a nonempty target list (the
boresight at index 0), every oracle, epoch and duration, the first row of
`get_delay_polynomials` — the boresight target's row — is identically zero
for every antenna and both components, because the stack is shifted by
subtracting target index 0's values row-wise. -/
theorem get_delay_polynomials_row0_zero (dp : DelayPolynomial)
    (oracle : DelayOracle) (epoch : TimeInput) (duration : ℚ)
    (h : dp.targets ≠ []) :
    ∃ m rest, dp.get_delay_polynomials oracle epoch duration = m :: rest ∧
      ∀ r ∈ m, ∀ x ∈ r, x = 0 := by
  unfold DelayPolynomial.get_delay_polynomials
  dsimp only
  cases ht : dp.targets with
  | nil => exact absurd ht h
  | cons t ts =>
    exact ⟨_, _, rfl, matSub_self_entries _⟩

/-- A concrete one-antenna, one-target delay polynomial. -/
def dpEx : DelayPolynomial :=
  DelayPolynomial.create [⟨0, 0, 0⟩] (.literals [(0, 0)]) ⟨0, 0, 0⟩

/-- A concrete oracle returning a fixed two-entry delay stack. -/
def oracleEx : DelayOracle := fun _ _ _ _ _ => [[[1, 2]], [[3, 4]]]

/-- Witness for C3 at a concrete delay polynomial and oracle. -/
theorem get_delay_polynomials_row0_zero_witness :
    ∃ m rest, dpEx.get_delay_polynomials oracleEx (.epochInt 0) 10 = m :: rest ∧
      ∀ r ∈ m, ∀ x ∈ r, x = 0 :=
  get_delay_polynomials_row0_zero dpEx oracleEx (.epochInt 0) 10
    (by simp [dpEx, DelayPolynomial.create, check_targets, make_katpoint_target])

/-- C10: every constructed `DelayPolynomial` has `frequency = 1.4e9` Hz
(the constructor takes no frequency argument), and every
delay-correction query of `get_delay_polynomials` passes exactly this
fixed value to the oracle: two oracles that agree at frequency `1.4e9`
yield identical outputs. -/
theorem delay_polynomial_fixed_frequency (antennas : List KatAntenna)
    (targets : TargetsInput) (reference : KatAntenna) :
    (DelayPolynomial.create antennas targets reference).frequency = 1400000000 ∧
    ∀ (oracle1 oracle2 : DelayOracle) (epoch : TimeInput) (duration : ℚ),
      (∀ tg window, oracle1 antennas reference 1400000000 tg window =
        oracle2 antennas reference 1400000000 tg window) →
      (DelayPolynomial.create antennas targets reference).get_delay_polynomials
          oracle1 epoch duration =
        (DelayPolynomial.create antennas targets reference).get_delay_polynomials
          oracle2 epoch duration := by
  have hfreq : (DelayPolynomial.create antennas targets reference).frequency =
      1400000000 := by
    unfold DelayPolynomial.create
    norm_num
  refine ⟨hfreq, ?_⟩
  intro oracle1 oracle2 epoch duration hagree
  unfold DelayPolynomial.get_delay_polynomials
  dsimp only
  rw [show ((DelayPolynomial.create antennas targets reference).targets.map
        fun target => (everyOther (oracle1
          (DelayPolynomial.create antennas targets reference).antennas
          (DelayPolynomial.create antennas targets reference).reference
          (DelayPolynomial.create antennas targets reference).frequency target
          (check_time epoch, check_time epoch + duration))).map
            fun row => row.headD []) =
      (DelayPolynomial.create antennas targets reference).targets.map
        fun target => (everyOther (oracle2
          (DelayPolynomial.create antennas targets reference).antennas
          (DelayPolynomial.create antennas targets reference).reference
          (DelayPolynomial.create antennas targets reference).frequency target
          (check_time epoch, check_time epoch + duration))).map
            fun row => row.headD [] from
    List.map_congr_left fun tg _ => by
      rw [show (DelayPolynomial.create antennas targets reference).antennas =
        antennas from rfl,
        show (DelayPolynomial.create antennas targets reference).reference =
        reference from rfl, hfreq, hagree]]

/-- A second concrete oracle: it agrees with `oracleEx` at frequency
`1.4e9` and differs everywhere else. -/
def oracleEx2 : DelayOracle := fun _ _ freq _ _ =>
  if freq = 1400000000 then [[[1, 2]], [[3, 4]]] else [[[9]]]

/-- Witness for C10: two distinct oracles that agree at `1.4e9` give equal
outputs on a concrete delay polynomial. -/
theorem delay_polynomial_fixed_frequency_witness :
    (DelayPolynomial.create [⟨0, 0, 0⟩] (.literals [(0, 0)]) ⟨0, 0, 0⟩).frequency =
      1400000000 ∧
    (DelayPolynomial.create [⟨0, 0, 0⟩] (.literals [(0, 0)]) ⟨0, 0, 0⟩).get_delay_polynomials
        oracleEx (.epochInt 0) 10 =
      (DelayPolynomial.create [⟨0, 0, 0⟩] (.literals [(0, 0)]) ⟨0, 0, 0⟩).get_delay_polynomials
        oracleEx2 (.epochInt 0) 10 :=
  ⟨(delay_polynomial_fixed_frequency [⟨0, 0, 0⟩] (.literals [(0, 0)]) ⟨0, 0, 0⟩).1,
   (delay_polynomial_fixed_frequency [⟨0, 0, 0⟩] (.literals [(0, 0)]) ⟨0, 0, 0⟩).2
     oracleEx oracleEx2 (.epochInt 0) 10 (fun _ _ => by simp [oracleEx, oracleEx2])⟩
